import Mathlib

/-!
Verification of the infrastructure bootstrap tool: a PostgreSQL database
lifecycle script (`manage_db.py`: `up` / `down`) and a Kafka topic
lifecycle script (`manage_topics.py`: `create_topics` / `delete_topics`).

The scripts are shallowly embedded as pure Lean functions over explicit
world states.  A world records the observable state of the external
system (existing databases and their applied schema scripts, existing
topics) together with failure oracles that model the non-deterministic
behaviour of the external server (connectivity, unexpected server
errors, schema-script execution failure).  Each operation returns the
updated world, a trace of the calls and log lines it performed, and the
process exit code where the source calls `sys.exit`.
-/

namespace ManageDB

/-- Python `str.strip()` on a list of characters: drop leading and
trailing whitespace. -/
def pyStrip (cs : List Char) : List Char :=
  ((cs.dropWhile Char.isWhitespace).reverse.dropWhile Char.isWhitespace).reverse

/-- Embeds `line.strip().startswith("\\")` from `up`: the test used to
drop psql meta-command lines such as `\c` (`startswith` of a one-character
string holds exactly when the stripped line is nonempty and starts with
that character). -/
def isMetaLine (l : String) : Bool :=
  (pyStrip l.data).head? == some '\\'

/-- The spec-side formulation of the same test: the first non-whitespace
character of the line is a backslash.  Stated from the spec's words, to
be compared with `isMetaLine`. -/
def specMeta (l : String) : Bool :=
  (l.data.dropWhile Char.isWhitespace).head? == some '\\'

/-- Helper for `splitLines`: accumulates the current line (reversed). -/
def splitLinesAux : List Char → List Char → List String
  | [], acc => [⟨acc.reverse⟩]
  | c :: cs, acc =>
    if c = '\n' then ⟨acc.reverse⟩ :: splitLinesAux cs []
    else splitLinesAux cs (c :: acc)

/-- Python `sql_script.split("\n")`. -/
def splitLines (s : String) : List String :=
  splitLinesAux s.data []

/-- Python `"\n".join(lines)`. -/
def joinLines : List String → String
  | [] => ""
  | [l] => l
  | l :: ls => l ++ "\n" ++ joinLines ls

/-- The line filter inside `up`:
`line for line in sql_script.split("\n") if not line.strip().startswith("\\")`. -/
def cleanLines (lines : List String) : List String :=
  lines.filter (fun l => !(isMetaLine l))

/-- `cleaned_sql = "\n".join(line for line in sql_script.split("\n") if
not line.strip().startswith("\\"))` from `up`. -/
def cleanSql (s : String) : String :=
  joinLines (cleanLines (splitLines s))

/-- Escaping of the interior of a quoted identifier, as performed by
`psycopg2.sql.Identifier`: every double-quote character is doubled. -/
def escQuotes : List Char → List Char
  | [] => []
  | c :: cs => if c = '"' then '"' :: '"' :: escQuotes cs else c :: escQuotes cs

/-- `psycopg2.sql.Identifier(name)` rendered to SQL text: the name is
wrapped in double quotes with interior double quotes doubled. -/
def quoteIdent (s : String) : String :=
  ⟨'"' :: (escQuotes s.data ++ ['"'])⟩

/-- The SQL text issued by `up`:
`sql.SQL("CREATE DATABASE {}").format(sql.Identifier(args.dbname))`. -/
def createDbSQL (n : String) : String :=
  "CREATE DATABASE " ++ quoteIdent n

/-- The SQL text issued by `down`:
`sql.SQL("DROP DATABASE IF EXISTS {}").format(sql.Identifier(args.dbname))`. -/
def dropDbSQL (n : String) : String :=
  "DROP DATABASE IF EXISTS " ++ quoteIdent n

/-- `true` iff the character list contains no lone (unescaped) double
quote: every `"` is immediately followed by another `"`.  A quoted
identifier whose interior satisfies this cannot close the quote early,
which is what rules out SQL injection through the name. -/
def noLoneQuote : List Char → Bool
  | [] => true
  | c :: cs =>
    if c = '"' then
      match cs with
      | d :: cs' => d = '"' && noLoneQuote cs'
      | [] => false
    else noLoneQuote cs

/-- Observable state of the PostgreSQL server together with the failure
oracles that model its non-deterministic behaviour. -/
structure DBWorld where
  /-- the server is reachable and credentials are accepted -/
  reachable : Bool
  /-- names of the existing databases -/
  dbs : List String
  /-- per-database journal of committed schema scripts -/
  schemas : List (String × List String)
  /-- contents of `postgres-init.sql`, `none` when the file is missing -/
  sqlFile : Option String
  /-- `CREATE DATABASE` fails for a reason other than `DuplicateDatabase` -/
  createOtherFail : Bool
  /-- `DROP DATABASE` fails even though the connection succeeded -/
  dropOtherFail : Bool
  /-- whether executing a given script text against a database with the
  given committed journal raises an error -/
  execFails : String → List String → Bool

/-- The committed schema journal of one database. -/
def getSchema (w : DBWorld) (d : String) : List String :=
  (w.schemas.lookup d).getD []

/-- One observable step of a `manage_db.py` run: connection attempts,
autocommit statements on the admin connection, script execution on the
target connection, transaction boundary calls, and log lines. -/
inductive DBEv where
  | connect (dbname : String)
  | connectFail (dbname : String)
  | adminSQL (text : String)
  | execScript (dbname : String) (text : String)
  | commit
  | rollback
  | infoSkip
  | errorLog
deriving DecidableEq, Repr

/-- `up(args)` from `manage_db.py`: connect to the `postgres` admin
database, issue `CREATE DATABASE` (a `DuplicateDatabase` error is caught
and logged as a skip, any other error is fatal), read and clean the SQL
file, reconnect to the target database and execute the cleaned script as
a single transaction, committing on success and rolling back on error.
Returns the final world, the event trace and the exit code. -/
def up (w : DBWorld) (dbname : String) : DBWorld × List DBEv × Nat :=
  if w.reachable then
    let ev0 : List DBEv := [.connect "postgres", .adminSQL (createDbSQL dbname)]
    if w.createOtherFail then
      (w, ev0 ++ [.errorLog], 1)
    else
      let w1 := if w.dbs.contains dbname then w else { w with dbs := w.dbs ++ [dbname] }
      let ev1 := ev0 ++ (if w.dbs.contains dbname then [DBEv.infoSkip] else [])
      match w.sqlFile with
      | none => (w1, ev1 ++ [.errorLog], 1)
      | some script =>
        let cleaned := cleanSql script
        let ev2 := ev1 ++ [DBEv.connect dbname, DBEv.execScript dbname cleaned]
        if w1.execFails cleaned (getSchema w1 dbname) then
          (w1, ev2 ++ [.rollback, .errorLog], 1)
        else
          ({ w1 with schemas := (dbname, getSchema w1 dbname ++ [cleaned]) :: w1.schemas },
           ev2 ++ [.commit], 0)
  else (w, [.connectFail "postgres", .errorLog], 1)

/-- `down(args)` from `manage_db.py`: connect to the `postgres` admin
database and issue `DROP DATABASE IF EXISTS` in autocommit mode; absence
of the database is not an error, any other failure is fatal. -/
def down (w : DBWorld) (dbname : String) : DBWorld × List DBEv × Nat :=
  if w.reachable then
    let ev0 : List DBEv := [.connect "postgres", .adminSQL (dropDbSQL dbname)]
    if w.dropOtherFail then
      (w, ev0 ++ [.errorLog], 1)
    else
      ({ w with dbs := w.dbs.filter (fun d => !(d == dbname)) }, ev0, 0)
  else (w, [.connectFail "postgres", .errorLog], 1)

/-- `true` exactly on the `commit` event. -/
def isCommit : DBEv → Bool
  | .commit => true
  | _ => false

/-- Number of `commit` calls in a trace. -/
def commitCount (t : List DBEv) : Nat :=
  (t.filter isCommit).length

/-- `true` on the events that reach the server with a mutating request:
the autocommit admin statements, the script execution, and `commit`. -/
def isMutEv : DBEv → Bool
  | .adminSQL _ => true
  | .execScript _ _ => true
  | .commit => true
  | _ => false

/-- Number of mutating calls in a trace. -/
def mutCount (t : List DBEv) : Nat :=
  (t.filter isMutEv).length

end ManageDB

namespace ManageTopics

/-- `kafka.admin.NewTopic(name, num_partitions, replication_factor)`. -/
structure NewTopic where
  name : String
  numPartitions : Nat
  replicationFactor : Nat
deriving DecidableEq, Repr

/-- Observable state of the Kafka cluster together with failure
oracles. -/
structure KWorld where
  /-- the bootstrap servers are reachable and SASL auth succeeds -/
  reachable : Bool
  /-- names of the existing topics -/
  topics : List String
  /-- the batch create request fails for a reason other than
  `TopicAlreadyExistsError` -/
  createOtherFail : Bool
  /-- the batch delete request fails for a reason other than
  `UnknownTopicOrPartitionError` -/
  deleteOtherFail : Bool
deriving DecidableEq, Repr

/-- One observable step of a `manage_topics.py` run: admin-client calls
and log lines. -/
inductive KEv where
  | listTopics
  | createReq (names : List String)
  | deleteReq (names : List String)
  | warnExists (name : String)
  | warnBatchExists
  | warnUnknown
  | infoNothing
  | infoCreated (name : String)
  | infoDeleted (name : String)
  | errorLog
deriving DecidableEq, Repr

/-- `create_topics(admin_client, topic_names, num_partitions,
replication_factor)` from `manage_topics.py`: list the existing topics,
warn for each requested name already present, build `NewTopic` records
for the missing names, return early with an info line when there is
nothing to create, otherwise submit one batch create request; a
`TopicAlreadyExistsError` from the cluster is logged as a warning and
any other error as an error line — neither is re-raised. -/
def create_topics (w : KWorld) (topic_names : List String)
    (num_partitions replication_factor : Nat) : KWorld × List KEv :=
  let existing := w.topics
  let warnEvs := (topic_names.filter (fun n => existing.contains n)).map KEv.warnExists
  let topics_to_create := (topic_names.filter (fun n => !(existing.contains n))).map
    (fun n => NewTopic.mk n num_partitions replication_factor)
  if topics_to_create.isEmpty then
    (w, KEv.listTopics :: (warnEvs ++ [KEv.infoNothing]))
  else
    let req := topics_to_create.map NewTopic.name
    let evs := KEv.listTopics :: (warnEvs ++ [KEv.createReq req])
    if w.createOtherFail then
      (w, evs ++ [KEv.errorLog])
    else if req.any (fun n => w.topics.contains n) then
      ({ w with topics := w.topics ++ req.filter (fun n => !(w.topics.contains n)) },
       evs ++ [KEv.warnBatchExists])
    else
      ({ w with topics := w.topics ++ req }, evs ++ req.map KEv.infoCreated)

/-- `delete_topics(admin_client, topic_names)` from `manage_topics.py`:
submit one batch delete request for the full name list; the cluster
deletes the requested topics that exist, and if any requested topic does
not exist the raised `UnknownTopicOrPartitionError` is logged as a
warning (any other error as an error line) — neither is re-raised. -/
def delete_topics (w : KWorld) (topic_names : List String) : KWorld × List KEv :=
  if w.deleteOtherFail then
    (w, [KEv.deleteReq topic_names, KEv.errorLog])
  else
    let w' := { w with topics := w.topics.filter (fun t => !(topic_names.contains t)) }
    if topic_names.any (fun n => !(w.topics.contains n)) then
      (w', [KEv.deleteReq topic_names, KEv.warnUnknown])
    else
      (w', KEv.deleteReq topic_names :: topic_names.map KEv.infoDeleted)

/-- The hard-coded desired topic list of `manage_topics.py`. -/
def TOPICS : List String :=
  ["websocket_fanout", "processing_fanout", "ecommerce_events",
   "ecommerce_processing_fanout", "product-updates", "recommendations",
   "inventory_updates", "inventory-events", "shopping-cart-events",
   "basket-patterns", "order-events", "product-recommendations"]

/-- Action selector of `manage_topics.py` (`--action {create,delete}`). -/
inductive KAction where
  | create
  | delete
deriving DecidableEq, Repr

/-- The `__main__` block of `manage_topics.py`: raise (uncaught, so the
process exits non-zero) when any of the three Kafka environment
variables is missing; otherwise construct the admin client and run the
selected action inside a `try` whose `except` clause logs the error —
after which the script falls off the end and the process exits 0. -/
def mainTopics (bootstrap user password : Option String) (w : KWorld)
    (act : KAction) : KWorld × List KEv × Nat :=
  if bootstrap.isNone || user.isNone || password.isNone then
    (w, [], 1)
  else if !(w.reachable) then
    (w, [KEv.errorLog], 0)
  else
    match act with
    | .create =>
      let r := create_topics w TOPICS 1 1
      (r.1, r.2, 0)
    | .delete =>
      let r := delete_topics w TOPICS
      (r.1, r.2, 0)

/-- The payload of a batch create request event, `none` on any other
event. -/
def reqProj : KEv → Option (List String)
  | KEv.createReq ns => some ns
  | _ => none

/-- The payloads of the batch create requests in a trace. -/
def createReqs (t : List KEv) : List (List String) :=
  t.filterMap reqProj

end ManageTopics

open ManageDB ManageTopics

/-! Concrete worlds used to instantiate the theorems. -/

/-- A healthy PostgreSQL world: reachable, no databases yet, empty
schema file present, no failure oracles set. -/
def dbOkW : DBWorld :=
  { reachable := true, dbs := [], schemas := [], sqlFile := some "",
    createOtherFail := false, dropOtherFail := false, execFails := fun _ _ => false }

/-- Like `dbOkW` but the database `ecommerce` already exists. -/
def dbExistsW : DBWorld :=
  { dbOkW with dbs := ["ecommerce"] }

/-- Like `dbOkW` but executing any schema script raises. -/
def dbExecFailW : DBWorld :=
  { dbOkW with execFails := fun _ _ => true }

/-- Like `dbOkW` but `CREATE DATABASE` fails for a non-duplicate
reason. -/
def dbCreateFailW : DBWorld :=
  { dbOkW with createOtherFail := true }

/-- An unreachable PostgreSQL server. -/
def dbUnreachW : DBWorld :=
  { dbOkW with reachable := false }

/-- A healthy Kafka world in which only `orders` exists. -/
def kOrdersW : KWorld :=
  { reachable := true, topics := ["orders"], createOtherFail := false,
    deleteOtherFail := false }

/-- An unreachable Kafka cluster. -/
def kUnreachW : KWorld :=
  { kOrdersW with reachable := false }

/-! Helper lemmas. -/

/-- Stripping trailing whitespace as well as leading whitespace does not
change the first character: Python's `strip()` and `lstrip()` agree on
`startswith` tests. -/
theorem pyStrip_head (cs : List Char) :
    (pyStrip cs).head? = (cs.dropWhile Char.isWhitespace).head? := by
  unfold pyStrip
  cases h : cs.dropWhile Char.isWhitespace with
  | nil => simp [h]
  | cons c rest =>
    have hc : Char.isWhitespace c = false := by
      have hh := List.head?_dropWhile_not Char.isWhitespace cs
      rw [h] at hh
      exact hh
    rw [List.reverse_cons, List.dropWhile_append]
    by_cases he : ((rest.reverse.dropWhile Char.isWhitespace).isEmpty : Bool) = true
    · simp [he, hc]
    · simp only [he, if_false, Bool.false_eq_true, List.reverse_append]
      simp

/-- The code's meta-command test agrees with the spec's formulation
(first non-whitespace character is a backslash) on every line. -/
theorem isMetaLine_eq_specMeta (l : String) : isMetaLine l = specMeta l := by
  unfold isMetaLine specMeta
  rw [pyStrip_head]

theorem createReqs_nil : createReqs [] = [] := rfl

theorem createReqs_cons (e : KEv) (t : List KEv) :
    createReqs (e :: t) = (match reqProj e with
      | some ns => ns :: createReqs t
      | none => createReqs t) := by
  unfold createReqs
  rw [List.filterMap_cons]
  cases reqProj e <;> rfl

theorem createReqs_append (a b : List KEv) :
    createReqs (a ++ b) = createReqs a ++ createReqs b := by
  unfold createReqs
  rw [List.filterMap_append]

theorem createReqs_map_warnExists (l : List String) :
    createReqs (l.map KEv.warnExists) = [] := by
  unfold createReqs
  rw [List.filterMap_map]
  exact List.filterMap_eq_nil_iff.mpr (fun a _ => rfl)

theorem createReqs_map_infoCreated (l : List String) :
    createReqs (l.map KEv.infoCreated) = [] := by
  unfold createReqs
  rw [List.filterMap_map]
  exact List.filterMap_eq_nil_iff.mpr (fun a _ => rfl)

theorem map_name_mk (l : List String) (p r : Nat) :
    (l.map (fun n => NewTopic.mk n p r)).map NewTopic.name = l := by
  rw [List.map_map]
  exact List.map_id'' (fun _ => rfl) l

/-- C6: the cleaning step removes exactly the lines whose first
non-whitespace character is a backslash, keeping all other lines
unchanged and in order (the kept lines form a sublist of the original
lines), so the cleaned script equals the script with exactly those
lines removed. -/
theorem c6_meta_command_filter (s : String) :
    cleanSql s = joinLines ((splitLines s).filter (fun l => !(specMeta l)))
  ∧ cleanLines (splitLines s) = (splitLines s).filter (fun l => !(specMeta l))
  ∧ (cleanLines (splitLines s)).Sublist (splitLines s) := by
  have hfilter : ∀ lines : List String,
      cleanLines lines = lines.filter (fun l => !(specMeta l)) := by
    intro lines
    unfold cleanLines
    exact List.filter_congr (fun l _ => by rw [isMetaLine_eq_specMeta])
  refine ⟨?_, hfilter _, ?_⟩
  · unfold cleanSql
    rw [hfilter]
  · unfold cleanLines
    exact List.filter_sublist _

/-- C3: `create_topics` computes the topics to create as exactly the
desired names not already existing; when none are missing it reports
nothing to do and issues zero create requests, otherwise it issues
exactly one batch create request carrying exactly the missing names; in
the spec's scenario (desired orders and inventory, existing orders)
exactly one create request is issued, for inventory, and the resulting
topic set is orders and inventory. -/
theorem c3_create_topics_delta :
    (∀ (w : KWorld) (names : List String) (p r : Nat),
        createReqs (create_topics w names p r).2 =
          (if (names.filter (fun n => !(w.topics.contains n))).isEmpty then []
           else [names.filter (fun n => !(w.topics.contains n))])
      ∧ (KEv.infoNothing ∈ (create_topics w names p r).2 ↔
          names.filter (fun n => !(w.topics.contains n)) = []))
  ∧ (create_topics kOrdersW ["orders", "inventory"] 1 1).1.topics = ["orders", "inventory"]
  ∧ createReqs (create_topics kOrdersW ["orders", "inventory"] 1 1).2 = [["inventory"]] := by
  refine ⟨fun w names p r => ?_, by decide, by decide⟩
  simp only [create_topics]
  rw [map_name_mk]
  by_cases hnil : names.filter (fun n => !(w.topics.contains n)) = []
  · rw [if_pos (show (((names.filter (fun n => !(w.topics.contains n))).map
      (fun n => NewTopic.mk n p r)).isEmpty = true) by rw [hnil]; rfl)]
    dsimp only
    constructor
    · rw [hnil]
      simp only [createReqs_cons, createReqs_append, createReqs_map_warnExists, reqProj,
        createReqs_nil, List.nil_append]
      simp
    · rw [iff_true_intro hnil]
      simp
  · have hc1 : ¬ (((names.filter (fun n => !(w.topics.contains n))).map
        (fun n => NewTopic.mk n p r)).isEmpty = true) := by
      rw [List.isEmpty_iff, List.map_eq_nil_iff]
      exact hnil
    have hc2 : ¬ ((names.filter (fun n => !(w.topics.contains n))).isEmpty = true) := by
      rw [List.isEmpty_iff]
      exact hnil
    rw [if_neg hc1, if_neg hc2]
    by_cases hcf : w.createOtherFail = true
    · rw [if_pos hcf]
      dsimp only
      constructor
      · simp only [createReqs_cons, createReqs_append, createReqs_map_warnExists, reqProj,
          createReqs_nil, List.nil_append, List.append_nil]
      · refine ⟨fun hmem => ?_, fun hx => absurd hx hnil⟩
        exfalso
        simp at hmem
    · rw [if_neg hcf]
      by_cases hany : ((names.filter (fun n => !(w.topics.contains n))).any
          (fun n => w.topics.contains n)) = true
      · rw [if_pos hany]
        dsimp only
        constructor
        · simp only [createReqs_cons, createReqs_append, createReqs_map_warnExists, reqProj,
            createReqs_nil, List.nil_append, List.append_nil]
        · refine ⟨fun hmem => ?_, fun hx => absurd hx hnil⟩
          exfalso
          simp at hmem
      · rw [if_neg hany]
        dsimp only
        constructor
        · simp only [createReqs_cons, createReqs_append, createReqs_map_warnExists,
            createReqs_map_infoCreated, reqProj, createReqs_nil, List.nil_append,
            List.append_nil]
        · refine ⟨fun hmem => ?_, fun hx => absurd hx hnil⟩
          exfalso
          simp at hmem

theorem createDbSQL_ne_dropDbSQL (n : String) : createDbSQL n ≠ dropDbSQL n := by
  intro h
  have h2 : (createDbSQL n).data.head? = (dropDbSQL n).data.head? := by rw [h]
  have hC : (createDbSQL n).data.head? = some 'C' := rfl
  have hD : (dropDbSQL n).data.head? = some 'D' := rfl
  rw [hC, hD] at h2
  exact absurd h2 (by decide)

/-- C2: with the server reachable, the create step non-fatal and the
schema file present, `up` executes the cleaned script as one transaction:
if execution raises, the target's committed schema journal is unchanged,
a rollback is issued, the error is logged and the exit code is 1; if
execution succeeds, exactly one commit is issued, no rollback happens
and the exit code is 0. -/
theorem c2_atomic_schema_transaction (w : DBWorld) (n s : String)
    (hr : w.reachable = true) (hc : w.createOtherFail = false) (hf : w.sqlFile = some s) :
    (w.execFails (cleanSql s) (getSchema w n) = true →
        (up w n).1.schemas = w.schemas
      ∧ DBEv.rollback ∈ (up w n).2.1
      ∧ DBEv.errorLog ∈ (up w n).2.1
      ∧ DBEv.execScript n (cleanSql s) ∈ (up w n).2.1
      ∧ (up w n).2.2 = 1)
  ∧ (w.execFails (cleanSql s) (getSchema w n) = false →
        commitCount (up w n).2.1 = 1
      ∧ DBEv.rollback ∉ (up w n).2.1
      ∧ DBEv.execScript n (cleanSql s) ∈ (up w n).2.1
      ∧ (up w n).2.2 = 0) := by
  constructor <;> intro he <;> unfold getSchema at he <;> by_cases hd : n ∈ w.dbs <;>
    simp [up, hr, hc, hf, hd, he, getSchema, commitCount, isCommit]

/-- C2 witness: at a concrete world whose script execution fails, the
schema journal is untouched and the run exits 1; at a healthy world
exactly one commit is issued and the run exits 0. -/
theorem c2_witness :
    ((up dbExecFailW "ecommerce").1.schemas = dbExecFailW.schemas
      ∧ (up dbExecFailW "ecommerce").2.2 = 1)
  ∧ (commitCount (up dbOkW "ecommerce").2.1 = 1 ∧ (up dbOkW "ecommerce").2.2 = 0) := by
  have h1 := (c2_atomic_schema_transaction dbExecFailW "ecommerce" "" rfl rfl rfl).1 rfl
  have h2 := (c2_atomic_schema_transaction dbOkW "ecommerce" "" rfl rfl rfl).2 rfl
  exact ⟨⟨h1.1, h1.2.2.2.2⟩, h2.1, h2.2.2.2⟩

/-- C4: on a reachable server, if `CREATE DATABASE` fails for a reason
other than already-exists, `up` exits 1, changes nothing and never
attempts schema application; if it fails because the database already
exists, the skip is logged and schema application proceeds. -/
theorem c4_create_error_paths (w : DBWorld) (n s : String) (hr : w.reachable = true) :
    (w.createOtherFail = true →
        (up w n).2.2 = 1
      ∧ (up w n).1 = w
      ∧ (∀ d t, DBEv.execScript d t ∉ (up w n).2.1))
  ∧ (w.createOtherFail = false → n ∈ w.dbs → w.sqlFile = some s →
        DBEv.infoSkip ∈ (up w n).2.1
      ∧ DBEv.execScript n (cleanSql s) ∈ (up w n).2.1) := by
  constructor
  · intro hc
    simp [up, hr, hc]
  · intro hc hd hf
    by_cases he : w.execFails (cleanSql s) ((w.schemas.lookup n).getD []) = true <;>
      simp [up, hr, hc, hd, hf, he, getSchema]

/-- C4 witness: at a concrete world where the create statement fails
for a non-duplicate reason the run exits 1 without touching the script;
at a world where the database already exists the skip is logged. -/
theorem c4_witness :
    ((up dbCreateFailW "ecommerce").2.2 = 1 ∧ (up dbCreateFailW "ecommerce").1 = dbCreateFailW)
  ∧ DBEv.infoSkip ∈ (up dbExistsW "ecommerce").2.1 := by
  have h1 := (c4_create_error_paths dbCreateFailW "ecommerce" "" rfl).1 rfl
  have h2 := (c4_create_error_paths dbExistsW "ecommerce" "" rfl).2 rfl (by decide) rfl
  exact ⟨⟨h1.1, h1.2.1⟩, h2.1⟩

/-- C10: when the schema-application step of `up` fails, only the
transaction is rolled back: the run exits 1 with the schema journal
unchanged, the database set is exactly what the create step left
(the target database is present), and no drop statement is ever
issued. -/
theorem c10_no_compensating_drop (w : DBWorld) (n s : String)
    (hr : w.reachable = true) (hc : w.createOtherFail = false) (hf : w.sqlFile = some s)
    (he : w.execFails (cleanSql s) (getSchema w n) = true) :
    (up w n).2.2 = 1
  ∧ (up w n).1.schemas = w.schemas
  ∧ (up w n).1.dbs = (if n ∈ w.dbs then w.dbs else w.dbs ++ [n])
  ∧ n ∈ (up w n).1.dbs
  ∧ DBEv.adminSQL (dropDbSQL n) ∉ (up w n).2.1 := by
  unfold getSchema at he
  by_cases hd : n ∈ w.dbs <;>
    simp [up, hr, hc, hf, hd, he, getSchema, createDbSQL_ne_dropDbSQL n,
      Ne.symm (createDbSQL_ne_dropDbSQL n)]

/-- C10 witness: a concrete failing run keeps the database it created
and exits 1. -/
theorem c10_witness :
    (up dbExecFailW "ecommerce").2.2 = 1
  ∧ "ecommerce" ∈ (up dbExecFailW "ecommerce").1.dbs := by
  have h := c10_no_compensating_drop dbExecFailW "ecommerce" "" rfl rfl rfl rfl
  exact ⟨h.1, h.2.2.2.1⟩

theorem filter_idem (p : String → Bool) (l : List String) :
    (l.filter p).filter p = l.filter p := by
  rw [List.filter_filter]
  exact List.filter_congr (fun a _ => Bool.and_self _)

theorem exists_missing_after_delete (ts names : List String) (hne : names ≠ []) :
    ∃ x ∈ names, x ∉ ts ∨ x ∈ names := by
  cases names with
  | nil => exact absurd rfl hne
  | cons a l => exact ⟨a, List.mem_cons_self a l, Or.inr (List.mem_cons_self a l)⟩

/-- C5: delete is idempotent-tolerant in both tools.  Dropping the
database twice succeeds both times (exit 0), the second drop changes
nothing and logs no error (the statement carries `IF EXISTS`); deleting
the topic set twice leaves the cluster unchanged the second time, the
full name set is submitted again, and the raised unknown-topic error is
logged as a warning, never as an error. -/
theorem c5_idempotent_delete :
    (∀ (w : DBWorld) (n : String), w.reachable = true → w.dropOtherFail = false →
        (down w n).2.2 = 0
      ∧ (down (down w n).1 n).2.2 = 0
      ∧ (down (down w n).1 n).1 = (down w n).1
      ∧ DBEv.errorLog ∉ (down (down w n).1 n).2.1
      ∧ DBEv.errorLog ∉ (down w n).2.1)
  ∧ (∀ (w : KWorld) (names : List String), w.deleteOtherFail = false → names ≠ [] →
        (delete_topics (delete_topics w names).1 names).1 = (delete_topics w names).1
      ∧ KEv.warnUnknown ∈ (delete_topics (delete_topics w names).1 names).2
      ∧ KEv.deleteReq names ∈ (delete_topics (delete_topics w names).1 names).2
      ∧ KEv.errorLog ∉ (delete_topics (delete_topics w names).1 names).2
      ∧ KEv.errorLog ∉ (delete_topics w names).2) := by
  constructor
  · intro w n hr hdf
    simp [down, hr, hdf, filter_idem]
  · intro w names hdf hne
    by_cases hany1 : ∃ x ∈ names, x ∉ w.topics <;>
      simp [delete_topics, hdf, hany1, exists_missing_after_delete w.topics names hne, filter_idem]

/-- C5 witness: dropping `ecommerce` twice at a concrete world exits 0
both times and the second drop is a no-op; deleting `orders` twice at a
concrete cluster leaves it unchanged and warns on the second run. -/
theorem c5_witness :
    (down (down dbExistsW "ecommerce").1 "ecommerce").2.2 = 0
  ∧ (down (down dbExistsW "ecommerce").1 "ecommerce").1 = (down dbExistsW "ecommerce").1
  ∧ KEv.warnUnknown ∈ (delete_topics (delete_topics kOrdersW ["orders"]).1 ["orders"]).2
  ∧ KEv.errorLog ∉ (delete_topics (delete_topics kOrdersW ["orders"]).1 ["orders"]).2 := by
  have h1 := c5_idempotent_delete.1 dbExistsW "ecommerce" rfl rfl
  have h2 := c5_idempotent_delete.2 kOrdersW ["orders"] rfl (by decide)
  exact ⟨h1.2.1, h1.2.2.1, h2.2.1, h2.2.2.2.1⟩

/-- C8 counterexample: with the target database already present, `up`
still issues the create-database statement — creation is not conditioned
on a prior existence check, contrary to the claim that the statement is
issued only if the database is absent. -/
theorem c8_counterexample :
    "ecommerce" ∈ dbExistsW.dbs
  ∧ DBEv.adminSQL (createDbSQL "ecommerce") ∈ (up dbExistsW "ecommerce").2.1 := by
  decide

/-- C8 amended: `up` opens its admin connection to the fixed control
database `postgres` (the first event of every reachable run) and
unconditionally issues the create-database statement; when the database
already exists the duplicate error is treated as a skip (logged, database
set unchanged) rather than a failure. -/
theorem c8_amended_admin_create (w : DBWorld) (n : String) (hr : w.reachable = true) :
    ((up w n).2.1).head? = some (DBEv.connect "postgres")
  ∧ DBEv.adminSQL (createDbSQL n) ∈ (up w n).2.1
  ∧ (w.createOtherFail = false → n ∈ w.dbs →
      (up w n).1.dbs = w.dbs ∧ DBEv.infoSkip ∈ (up w n).2.1) := by
  by_cases hc : w.createOtherFail = true
  · simp [up, hr, hc]
  · rcases hsf : w.sqlFile with _ | s
    · by_cases hd : n ∈ w.dbs <;> simp [up, hr, hc, hsf, hd]
    · by_cases hd : n ∈ w.dbs <;>
        by_cases he : w.execFails (cleanSql s) ((w.schemas.lookup n).getD []) = true <;>
        simp [up, hr, hc, hsf, hd, he, getSchema]

/-- C8 witness: at a concrete world with the database present, the run
starts on the admin connection, issues the create statement, and skips
creation. -/
theorem c8_witness :
    ((up dbExistsW "ecommerce").2.1).head? = some (DBEv.connect "postgres")
  ∧ (up dbExistsW "ecommerce").1.dbs = dbExistsW.dbs := by
  have h := c8_amended_admin_create dbExistsW "ecommerce" rfl
  exact ⟨h.1, (h.2.2 rfl (by decide)).1⟩

theorem escQuotes_ne_nil {a : List Char} (h : a ≠ []) : escQuotes a ≠ [] := by
  cases a with
  | nil => exact absurd rfl h
  | cons c cs =>
    by_cases hc : c = '"' <;> simp [escQuotes, hc]

theorem escQuotes_inj : ∀ (a b : List Char), escQuotes a = escQuotes b → a = b := by
  intro a
  induction a with
  | nil =>
    intro b h
    cases b with
    | nil => rfl
    | cons d ds => exact absurd h.symm (escQuotes_ne_nil (by simp))
  | cons c cs ih =>
    intro b h
    cases b with
    | nil => exact absurd h (escQuotes_ne_nil (by simp))
    | cons d ds =>
      by_cases hc : c = '"' <;> by_cases hd : d = '"'
      · subst hc
        subst hd
        simp only [escQuotes, if_pos rfl] at h
        injection h with h1 h2
        injection h2 with h3 h4
        rw [ih ds h4]
      · subst hc
        rw [show escQuotes ('"' :: cs) = '"' :: '"' :: escQuotes cs from by
              simp [escQuotes],
            show escQuotes (d :: ds) = d :: escQuotes ds from by simp [escQuotes, hd]] at h
        injection h with h1 h2
        exact absurd h1.symm hd
      · subst hd
        rw [show escQuotes (c :: cs) = c :: escQuotes cs from by simp [escQuotes, hc],
            show escQuotes ('"' :: ds) = '"' :: '"' :: escQuotes ds from by
              simp [escQuotes]] at h
        injection h with h1 h2
        exact absurd h1 hc
      · rw [show escQuotes (c :: cs) = c :: escQuotes cs from by simp [escQuotes, hc],
            show escQuotes (d :: ds) = d :: escQuotes ds from by simp [escQuotes, hd]] at h
        injection h with h1 h2
        rw [h1, ih ds h2]

theorem noLoneQuote_escQuotes (l : List Char) : noLoneQuote (escQuotes l) = true := by
  induction l with
  | nil => rfl
  | cons c cs ih =>
    by_cases hc : c = '"'
    · subst hc
      simp only [escQuotes, if_pos rfl]
      simp [noLoneQuote, ih]
    · rw [show escQuotes (c :: cs) = c :: escQuotes cs from by simp [escQuotes, hc]]
      cases hsc : escQuotes cs with
      | nil => simp [noLoneQuote, hc]
      | cons d ds =>
        rw [hsc] at ih
        simp [noLoneQuote, hc, ih]

theorem quoteIdent_inj (a b : String) (h : quoteIdent a = quoteIdent b) : a = b := by
  have hd : (quoteIdent a).data = (quoteIdent b).data := by rw [h]
  simp only [quoteIdent] at hd
  injection hd with h1 h2
  rw [List.append_left_inj] at h2
  exact String.ext (escQuotes_inj _ _ h2)

/-- C9: both the create path and the drop path embed the database name
exclusively through identifier escaping: the issued SQL is the fixed
template applied to the quoted identifier, the quoting is injective (two
names rendering to the same SQL are equal), and the escaped interior
contains no lone double quote, so the name can never close the quote
early and inject executable SQL. -/
theorem c9_identifier_escaping (w : DBWorld) (a b n : String) (hr : w.reachable = true) :
    createDbSQL n = "CREATE DATABASE " ++ quoteIdent n
  ∧ dropDbSQL n = "DROP DATABASE IF EXISTS " ++ quoteIdent n
  ∧ (quoteIdent a = quoteIdent b → a = b)
  ∧ noLoneQuote (escQuotes n.data) = true
  ∧ DBEv.adminSQL (createDbSQL n) ∈ (up w n).2.1
  ∧ DBEv.adminSQL (dropDbSQL n) ∈ (down w n).2.1 := by
  refine ⟨rfl, rfl, quoteIdent_inj a b, noLoneQuote_escQuotes n.data, ?_, ?_⟩
  · by_cases hc : w.createOtherFail = true
    · simp [up, hr, hc]
    · rcases hsf : w.sqlFile with _ | s
      · by_cases hd : n ∈ w.dbs <;> simp [up, hr, hc, hsf, hd]
      · by_cases hd : n ∈ w.dbs <;>
          by_cases he : w.execFails (cleanSql s) ((w.schemas.lookup n).getD []) = true <;>
          simp [up, hr, hc, hsf, hd, he, getSchema]
  · by_cases hdf : w.dropOtherFail = true <;> simp [down, hr, hdf]

/-- C9 witness: a name that needs quoting round-trips through the
rendered SQL at a concrete world. -/
theorem c9_witness :
    DBEv.adminSQL (createDbSQL "we-ird\"Name") ∈ (up dbOkW "we-ird\"Name").2.1
  ∧ noLoneQuote (escQuotes ("we-ird\"Name").data) = true := by
  have h := c9_identifier_escaping dbOkW "a" "b" "we-ird\"Name" rfl
  exact ⟨h.2.2.2.2.1, h.2.2.2.1⟩

/-- `create_topics` is the identity (with a nothing-to-do report) when
every desired name already exists. -/
theorem create_topics_noop (w : KWorld) (names : List String) (p r : Nat)
    (hall : ∀ n ∈ names, n ∈ w.topics) :
    create_topics w names p r = (w, KEv.listTopics ::
      ((names.filter (fun n => w.topics.contains n)).map KEv.warnExists
        ++ [KEv.infoNothing])) := by
  have hnil : names.filter (fun n => !(w.topics.contains n)) = [] := by
    rw [List.filter_eq_nil_iff]
    intro a ha
    simp [hall a ha]
  simp only [create_topics, hnil, List.map_nil]
  rfl

/-- After a failure-free `create_topics`, every desired name exists and
the failure oracle is unchanged. -/
theorem create_topics_covers (w : KWorld) (names : List String) (p r : Nat)
    (hcf : w.createOtherFail = false) :
    (∀ n ∈ names, n ∈ (create_topics w names p r).1.topics)
  ∧ (create_topics w names p r).1.createOtherFail = false := by
  by_cases hnil : names.filter (fun n => !(w.topics.contains n)) = []
  · have hall : ∀ n ∈ names, n ∈ w.topics := by
      intro a ha
      by_contra hmem
      have hx : a ∈ names.filter (fun n => !(w.topics.contains n)) :=
        List.mem_filter.mpr ⟨ha, by simpa using hmem⟩
      rw [hnil] at hx
      exact absurd hx (List.not_mem_nil a)
    rw [create_topics_noop w names p r hall]
    exact ⟨hall, hcf⟩
  · have hc1 : ¬ (((names.filter (fun n => !(w.topics.contains n))).map
        (fun n => NewTopic.mk n p r)).isEmpty = true) := by
      rw [List.isEmpty_iff, List.map_eq_nil_iff]
      exact hnil
    have hanyf : ¬ (((names.filter (fun n => !(w.topics.contains n))).any
        (fun n => w.topics.contains n)) = true) := by
      intro hx
      rcases List.any_eq_true.mp hx with ⟨x, hx1, hx2⟩
      rw [List.mem_filter] at hx1
      rw [hx2] at hx1
      exact absurd hx1.2 (by decide)
    simp only [create_topics]
    rw [map_name_mk, if_neg hc1, if_neg (by rw [hcf]; exact Bool.false_ne_true),
      if_neg hanyf]
    dsimp only
    refine ⟨fun a ha => ?_, hcf⟩
    by_cases hm : a ∈ w.topics
    · exact List.mem_append.mpr (Or.inl hm)
    · exact List.mem_append.mpr (Or.inr (List.mem_filter.mpr ⟨ha, by simpa using hm⟩))

/-- C1 counterexample: at a concrete healthy world, after one `up` run
the target database is present, yet the second `up` run still performs
mutating calls — it re-issues the create-database statement and
re-executes the schema script — so the database tool's create path does
not perform zero mutating calls on already-present items. -/
theorem c1_counterexample :
    "ecommerce" ∈ (up dbOkW "ecommerce").1.dbs
  ∧ mutCount (up (up dbOkW "ecommerce").1 "ecommerce").2.1 ≠ 0 := by
  decide

/-- C1 amended: the topic tool's create path is fully idempotent —
a second `create_topics` run leaves the cluster state unchanged and
issues zero create requests.  The database tool's `up` is only
state-idempotent on the database set: a second run (with a script whose
execution succeeds) exits 0 and leaves the database set unchanged, but
it re-issues the create-database statement and re-executes the schema
script rather than performing zero mutating calls. -/
theorem c1_amended_idempotence :
    (∀ (w : KWorld) (names : List String) (p r : Nat), w.createOtherFail = false →
        (create_topics (create_topics w names p r).1 names p r).1
          = (create_topics w names p r).1
      ∧ createReqs (create_topics (create_topics w names p r).1 names p r).2 = [])
  ∧ (∀ (w : DBWorld) (n s : String), w.reachable = true → w.createOtherFail = false →
        w.sqlFile = some s → (∀ t st, w.execFails t st = false) →
        (up (up w n).1 n).2.2 = 0
      ∧ (up (up w n).1 n).1.dbs = (up w n).1.dbs
      ∧ DBEv.adminSQL (createDbSQL n) ∈ (up (up w n).1 n).2.1
      ∧ DBEv.execScript n (cleanSql s) ∈ (up (up w n).1 n).2.1) := by
  constructor
  · intro w names p r hcf
    obtain ⟨hall, _⟩ := create_topics_covers w names p r hcf
    rw [create_topics_noop ((create_topics w names p r).1) names p r hall]
    refine ⟨rfl, ?_⟩
    simp [createReqs_cons, createReqs_append, createReqs_map_warnExists, reqProj,
      createReqs_nil]
  · intro w n s hr hc hf hx
    by_cases hd : n ∈ w.dbs <;>
      simp [up, hr, hc, hf, hx, hd, getSchema]

/-- C1 witness: a concrete double run of each tool. -/
theorem c1_witness :
    createReqs (create_topics (create_topics kOrdersW ["orders", "inventory"] 1 1).1
      ["orders", "inventory"] 1 1).2 = []
  ∧ (up (up dbOkW "ecommerce").1 "ecommerce").2.2 = 0 := by
  have h1 := c1_amended_idempotence.1 kOrdersW ["orders", "inventory"] 1 1 rfl
  have h2 := c1_amended_idempotence.2 dbOkW "ecommerce" "" rfl rfl rfl (fun _ _ => rfl)
  exact ⟨h1.2, h2.1⟩

/-- C7 counterexample: at an unreachable Kafka cluster with full
credentials configured, the topic tool logs the connectivity error but
the process exits 0, contradicting the claim that connectivity failures
always exit non-zero. -/
theorem c7_counterexample :
    kUnreachW.reachable = false
  ∧ (mainTopics (some "b") (some "u") (some "p") kUnreachW KAction.create).2.2 = 0
  ∧ KEv.errorLog ∈ (mainTopics (some "b") (some "u") (some "p") kUnreachW KAction.create).2.1 := by
  decide

/-- C7 amended: the database tool exits non-zero immediately on a
connectivity failure without touching any state, and exits 0 exactly on
success outcomes; the topic tool exits non-zero only when the required
environment variables are missing — with credentials configured it
always exits 0, logging a connectivity failure as an error instead of
failing the process. -/
theorem c7_amended_exit_codes (w : DBWorld) (kw : KWorld) (n : String)
    (b u p : Option String) (a : KAction) :
    (w.reachable = false →
        (up w n).2.2 = 1 ∧ (down w n).2.2 = 1 ∧ (up w n).1 = w ∧ (down w n).1 = w)
  ∧ ((up w n).2.2 = 0 ↔ (w.reachable = true ∧ w.createOtherFail = false ∧
        ∃ s, w.sqlFile = some s ∧ w.execFails (cleanSql s) ((w.schemas.lookup n).getD []) = false))
  ∧ ((down w n).2.2 = 0 ↔ (w.reachable = true ∧ w.dropOtherFail = false))
  ∧ (b.isSome = true → u.isSome = true → p.isSome = true → kw.reachable = false →
        (mainTopics b u p kw a).2.2 = 0 ∧ KEv.errorLog ∈ (mainTopics b u p kw a).2.1)
  ∧ (b.isSome = true → u.isSome = true → p.isSome = true →
        (mainTopics b u p kw a).2.2 = 0)
  ∧ ((b.isNone = true ∨ u.isNone = true ∨ p.isNone = true) →
        (mainTopics b u p kw a).2.2 = 1) := by
  refine ⟨?_, ?_, ?_, ?_, ?_, ?_⟩
  · intro hru
    simp [up, down, hru]
  · cases hb : w.reachable
    · simp [up, hb]
    · by_cases hc : w.createOtherFail = true
      · simp [up, hb, hc]
      · rcases hsf : w.sqlFile with _ | s
        · simp [up, hb, hc, hsf]
        · by_cases hd : n ∈ w.dbs <;>
            by_cases he : w.execFails (cleanSql s) ((w.schemas.lookup n).getD []) = true <;>
            simp [up, hb, hc, hsf, hd, he, getSchema]
  · cases hb : w.reachable
    · simp [down, hb]
    · by_cases hdf : w.dropOtherFail = true <;> simp [down, hb, hdf]
  · intro hbs hus hps hkr
    rcases b with _ | bv
    · exact absurd hbs (by simp)
    rcases u with _ | uv
    · exact absurd hus (by simp)
    rcases p with _ | pv
    · exact absurd hps (by simp)
    simp [mainTopics, hkr]
  · intro hbs hus hps
    rcases b with _ | bv
    · exact absurd hbs (by simp)
    rcases u with _ | uv
    · exact absurd hus (by simp)
    rcases p with _ | pv
    · exact absurd hps (by simp)
    cases hkr : kw.reachable
    · simp [mainTopics, hkr]
    · cases a <;> simp [mainTopics, hkr]
  · intro hmiss
    rcases hmiss with hb | hu | hp
    · simp [mainTopics, hb]
    · simp [mainTopics, hu]
    · simp [mainTopics, hp]

/-- C7 witness: concrete exit codes — an unreachable database server
exits 1, a healthy `up` run exits 0, and the topic tool with credentials
set exits 0. -/
theorem c7_witness :
    (up dbUnreachW "ecommerce").2.2 = 1
  ∧ (up dbOkW "ecommerce").2.2 = 0
  ∧ (mainTopics (some "b") (some "u") (some "p") kOrdersW KAction.create).2.2 = 0 := by
  have h1 := (c7_amended_exit_codes dbUnreachW kOrdersW "ecommerce"
    (some "b") (some "u") (some "p") KAction.create).1 rfl
  have h2 := (c7_amended_exit_codes dbOkW kOrdersW "ecommerce"
    (some "b") (some "u") (some "p") KAction.create).2.1.mpr
    ⟨rfl, rfl, "", rfl, rfl⟩
  have h3 := ((c7_amended_exit_codes dbOkW kOrdersW "ecommerce"
    (some "b") (some "u") (some "p") KAction.create).2.2.2.2.1) rfl rfl rfl
  exact ⟨h1.1, h2, h3⟩
